import Mathlib

/-!
# Verification of `src/userauth/models.py`

Shallow embedding of the model-training/evaluation utility in
`userauth/models.py`.  Python dictionaries are modelled as association
lists (`List (String × _)`) preserving insertion/iteration order, which
matches Python 3 dict semantics.  The sklearn collaborators
(`fit`, `predict`, `predict_proba`, `accuracy_score`, `GridSearchCV`,
and the `custom_roc_auc` helper) are opaque to this module, so they are
modelled as abstract operation records over abstract types; the theorems
quantify over them.  Standard-output printing is an effect the claims do
not touch and is not modelled; the in-place mutation of models by `fit`
is modelled by explicit value passing, and the calls to `fit` are
recorded in an explicit effect trace.  Python `float` literals in the
parameter grids are modelled as rationals.
-/

set_option autoImplicit false

namespace UserAuth

/-- A value that can occur in a hyperparameter candidate list in
`define_param_grid`: ints, strings, `None`, booleans, tuples of ints
(hidden layer sizes), and floats (modelled as rationals). -/
inductive PValue where
  | pint (n : Nat)
  | pstr (s : String)
  | pnone
  | pbool (b : Bool)
  | ptuple (t : List Nat)
  | prat (q : Rat)
  deriving DecidableEq

/-- A parameter grid: mapping from hyperparameter name to its ordered
candidate list (`ParamGrid` in the spec's data model). -/
def ParamGrid : Type := List (String × List PValue)

/-- The sklearn classifier instances constructed by `define_models`.
Each constructor carries exactly the keyword arguments the source passes
(only `random_state`); all other sklearn defaults are owned by the
external library and elided.  A freshly constructed instance is
untrained by construction. -/
inductive SKModel where
  | randomForestClassifier (random_state : Option Nat)
  | kneighborsClassifier
  | mlpClassifier (random_state : Option Nat)
  deriving DecidableEq

/-- Embedding of `define_models()` (models.py lines 9-20).  The `Unit`
argument mirrors the Python call `define_models()`; the function reads
no ambient state. -/
def define_models (_ : Unit) : List (String × SKModel) :=
  [ ("Random Forest", SKModel.randomForestClassifier (some 1234)),
    ("KNN", SKModel.kneighborsClassifier),
    ("MLP", SKModel.mlpClassifier (some 1234)) ]

/-- Embedding of `define_param_grid()` (models.py lines 23-49). -/
def define_param_grid (_ : Unit) : List (String × ParamGrid) :=
  [ ("Random Forest",
      [ ("n_estimators", [PValue.pint 10, PValue.pint 50, PValue.pint 100, PValue.pint 200]),
        ("max_depth", [PValue.pint 5, PValue.pint 10, PValue.pint 20, PValue.pnone]),
        ("max_features", [PValue.pstr "sqrt", PValue.pstr "log2", PValue.pnone]),
        ("min_samples_split", [PValue.pint 2, PValue.pint 5, PValue.pint 10]),
        ("min_samples_leaf", [PValue.pint 1, PValue.pint 2, PValue.pint 4]),
        ("bootstrap", [PValue.pbool true, PValue.pbool false]) ]),
    ("KNN",
      [ ("n_neighbors", [PValue.pint 3, PValue.pint 5, PValue.pint 10, PValue.pint 15, PValue.pint 20]),
        ("weights", [PValue.pstr "uniform", PValue.pstr "distance"]),
        ("algorithm", [PValue.pstr "auto", PValue.pstr "ball_tree", PValue.pstr "kd_tree", PValue.pstr "brute"]),
        ("leaf_size", [PValue.pint 10, PValue.pint 30, PValue.pint 50]),
        ("p", [PValue.pint 1, PValue.pint 2]) ]),
    ("MLP",
      [ ("hidden_layer_sizes", [PValue.ptuple [50], PValue.ptuple [100], PValue.ptuple [100, 50], PValue.ptuple [150, 100, 50]]),
        ("solver", [PValue.pstr "adam", PValue.pstr "sgd", PValue.pstr "lbfgs"]),
        ("activation", [PValue.pstr "relu", PValue.pstr "tanh", PValue.pstr "logistic"]),
        ("alpha", [PValue.prat (1/10000), PValue.prat (1/1000), PValue.prat (1/100), PValue.prat (1/10)]),
        ("learning_rate", [PValue.pstr "constant", PValue.pstr "invscaling", PValue.pstr "adaptive"]),
        ("max_iter", [PValue.pint 500, PValue.pint 1000, PValue.pint 2000]) ]) ]

/-- Cardinality of the Cartesian-product search space of a grid: the
product of the candidate-list lengths of its parameters. -/
def gridCombinations (g : ParamGrid) : Nat :=
  g.foldl (fun a p => a * p.2.length) 1

/-- The ordered list of candidate-list lengths of a grid. -/
def gridShape (g : ParamGrid) : List Nat :=
  g.map (fun p => p.2.length)

/-! ## Trainer/Evaluator: `train_and_evaluate` (models.py lines 52-77)

Abstract types: `M` model instances, `X` feature matrices, `Y` label
vectors, `A` the numeric score type.  The sklearn capability set and
the `custom_roc_auc` helper are bundled as an abstract operation
record; `fit` returns the post-fit model value (the Python code
mutates the model in place and keeps the same reference). -/

/-- The collaborators used by `train_and_evaluate`: classifier
capabilities `fit` / `predict` / `predict_proba`, sklearn
`accuracy_score`, and the external `custom_roc_auc` helper returning
`(fpr, tpr, auc)`. -/
structure MLOps (M X Y A : Type) where
  fit : M → X → Y → M
  predict : M → X → Y
  predict_proba : M → X → List (List A)
  accuracy_score : Y → Y → A
  custom_roc_auc : Y → List A → List A × List A × A

/-- Column `j` of a row-major matrix: `matrix[:, j]` in numpy slicing.
Rows shorter than `j+1` (impossible for a well-formed probability
matrix) contribute the default element. -/
def matrixCol {A : Type} [Inhabited A] (j : Nat) (m : List (List A)) : List A :=
  m.map (fun r => r.getD j default)

/-- The per-model evaluation record built by `train_and_evaluate`:
`{"accuracy": ..., "fpr": ..., "tpr": ..., "auc": ...}`. -/
structure EvalRecord (A : Type) where
  accuracy : A
  fpr : List A
  tpr : List A
  auc : A
  deriving DecidableEq

/-- Embedding of `train_and_evaluate(models, X_train, X_test, y_train,
y_test, from_loaded)` (models.py lines 52-77).  The recursion is the
`for name, model in models.items()` loop; the third component is the
effect trace of `fit` invocations (the name of each model on which
`model.fit(X_train, y_train)` was called, in call order).  The printed
classification reports are a stdout effect not modelled. -/
def train_and_evaluate {M X Y A : Type} [Inhabited A] (ops : MLOps M X Y A)
    (models : List (String × M)) (X_train X_test : X) (y_train y_test : Y)
    (from_loaded : Bool) :
    List (String × EvalRecord A) × List (String × M) × List String :=
  match models with
  | [] => ([], [], [])
  | (name, model0) :: rest =>
    let model := if !from_loaded then ops.fit model0 X_train y_train else model0
    let y_pred := ops.predict model X_test
    let acc := ops.accuracy_score y_test y_pred
    let y_scores := matrixCol 1 (ops.predict_proba model X_test)
    let rta := ops.custom_roc_auc y_test y_scores
    let tail := train_and_evaluate ops rest X_train X_test y_train y_test from_loaded
    ((name, ⟨acc, rta.1, rta.2.1, rta.2.2⟩) :: tail.1,
     (name, model) :: tail.2.1,
     (if !from_loaded then [name] else []) ++ tail.2.2)

/-- The model value used for evaluation of one entry: the input model
fitted on `(X_train, y_train)` unless `from_loaded` is set. -/
def fittedModel {M X Y A : Type} [Inhabited A] (ops : MLOps M X Y A)
    (X_train : X) (y_train : Y) (from_loaded : Bool) (m : M) : M :=
  if !from_loaded then ops.fit m X_train y_train else m

/-- The evaluation record of one model: accuracy of `predict` on
`X_test` against `y_test`, and the `(fpr, tpr, auc)` triple produced by
`custom_roc_auc` on `y_test` and column 1 of `predict_proba(X_test)`. -/
def evalRecordOf {M X Y A : Type} [Inhabited A] (ops : MLOps M X Y A)
    (X_train X_test : X) (y_train y_test : Y) (from_loaded : Bool) (m : M) :
    EvalRecord A :=
  let model := fittedModel ops X_train y_train from_loaded m
  let rta := ops.custom_roc_auc y_test (matrixCol 1 (ops.predict_proba model X_test))
  ⟨ops.accuracy_score y_test (ops.predict model X_test), rta.1, rta.2.1, rta.2.2⟩

/-! ## Tuner: `tune_models` (models.py lines 80-109)

`GridSearchCV(model, param_grids[name], scoring='roc_auc', cv=3,
n_jobs=-1)` is modelled as a record of its constructor arguments; its
`.fit` is an abstract operation producing a fitted search object
exposing `best_estimator_` and `best_params_`.  `G` is the grid type,
`P` the type of `best_params_`. -/

/-- The constructor arguments of an sklearn `GridSearchCV` object as
built by `tune_models`. -/
structure GridSearchCV (M G : Type) where
  estimator : M
  param_grid : G
  scoring : String
  cv : Nat
  n_jobs : Int
  deriving DecidableEq

/-- A fitted grid search: the attributes of `GridSearchCV` read by
`tune_models` after `.fit`. -/
structure GSFitted (M P : Type) where
  best_estimator_ : M
  best_params_ : P
  deriving DecidableEq

/-- The external cross-validated exhaustive search routine:
`GridSearchCV(...).fit(X, y)`. -/
structure GSOps (M G X Y P : Type) where
  fit : GridSearchCV M G → X → Y → GSFitted M P

/-- The loop body of `tune_models` (models.py lines 96-109), with
`best` the accumulated `best_models` dict.  A model whose name has a
grid entry is replaced by the search's best estimator and the loop
continues; the first model without a grid entry is carried through
unchanged and the nested `return best_models` fires.  When the loop
runs out of models without hitting that branch, control falls off the
end of the function: Python returns `None`, modelled as `none`. -/
def tuneLoop {M G X Y P : Type} (ops : GSOps M G X Y P)
    (param_grids : List (String × G)) (X_train : X) (y_train : Y) :
    List (String × M) → List (String × M) → Option (List (String × M))
  | [], _best => none
  | (name, model) :: rest, best =>
    match List.lookup name param_grids with
    | some grid =>
      let grid_search := ops.fit ⟨model, grid, "roc_auc", 3, -1⟩ X_train y_train
      tuneLoop ops param_grids X_train y_train rest
        (best ++ [(name, grid_search.best_estimator_)])
    | none => some (best ++ [(name, model)])

/-- Embedding of `tune_models(models, param_grids, X_train, y_train)`
(models.py lines 80-109): `best_models = {}` then the loop. -/
def tune_models {M G X Y P : Type} (ops : GSOps M G X Y P)
    (models : List (String × M)) (param_grids : List (String × G))
    (X_train : X) (y_train : Y) : Option (List (String × M)) :=
  tuneLoop ops param_grids X_train y_train models []

/-- The entry `tune_models` would store for one model: the best
estimator of the grid search when the model's name has a grid entry,
the model unchanged otherwise. -/
def tunedEntry {M G X Y P : Type} (ops : GSOps M G X Y P)
    (param_grids : List (String × G)) (X_train : X) (y_train : Y)
    (p : String × M) : String × M :=
  match List.lookup p.1 param_grids with
  | some grid => (p.1, (ops.fit ⟨p.2, grid, "roc_auc", 3, -1⟩ X_train y_train).best_estimator_)
  | none => p

/-- A concrete instantiation of the grid-search collaborator used to
exercise the `tune_models` theorems on closed inputs: models and grids
are natural numbers, the data partitions are trivial, and the search
returns the estimator shifted by 100. -/
def natGSOps : GSOps Nat Nat Unit Unit Unit :=
  ⟨fun gs _ _ => ⟨gs.estimator + 100, ()⟩⟩

/-! ## Helper lemmas -/

/-- `train_and_evaluate` is elementwise: results, trained models and
the `fit` trace are `map`s over the input association list. -/
theorem train_and_evaluate_eq {M X Y A : Type} [Inhabited A] (ops : MLOps M X Y A)
    (models : List (String × M)) (X_train X_test : X) (y_train y_test : Y)
    (from_loaded : Bool) :
    train_and_evaluate ops models X_train X_test y_train y_test from_loaded =
      (models.map (fun p => (p.1, evalRecordOf ops X_train X_test y_train y_test from_loaded p.2)),
       models.map (fun p => (p.1, fittedModel ops X_train y_train from_loaded p.2)),
       if !from_loaded then models.map Prod.fst else []) := by
  induction models with
  | nil => cases from_loaded <;> rfl
  | cons hd tl ih =>
    obtain ⟨name, model0⟩ := hd
    cases from_loaded <;>
      simp [train_and_evaluate, ih, evalRecordOf, fittedModel]

/-- The `tune_models` loop returns `none` on any remaining model list
whose names all have grid entries. -/
theorem tuneLoop_all_gridded {M G X Y P : Type} (ops : GSOps M G X Y P)
    (param_grids : List (String × G)) (X_train : X) (y_train : Y) :
    ∀ (l acc : List (String × M)),
      (∀ p ∈ l, (List.lookup p.1 param_grids).isSome) →
      tuneLoop ops param_grids X_train y_train l acc = none := by
  intro l
  induction l with
  | nil => intro acc _; rfl
  | cons hd tl ih =>
    intro acc hall
    obtain ⟨name, model⟩ := hd
    obtain ⟨g, hg⟩ := Option.isSome_iff_exists.mp (hall ⟨name, model⟩ (List.mem_cons_self _ _))
    simp only [tuneLoop, hg]
    exact ih _ (fun p hp => hall p (List.mem_cons_of_mem _ hp))

/-- Running the `tune_models` loop through a gridded prefix and then a
grid-less model returns the tuned prefix plus that model, from any
accumulator. -/
theorem tuneLoop_prefix_then_gridless {M G X Y P : Type} (ops : GSOps M G X Y P)
    (param_grids : List (String × G)) (X_train : X) (y_train : Y)
    (name : String) (model : M) (post : List (String × M)) :
    ∀ (pre acc : List (String × M)),
      (∀ p ∈ pre, (List.lookup p.1 param_grids).isSome) →
      List.lookup name param_grids = none →
      tuneLoop ops param_grids X_train y_train (pre ++ (name, model) :: post) acc =
        some (acc ++ pre.map (tunedEntry ops param_grids X_train y_train) ++ [(name, model)]) := by
  intro pre
  induction pre with
  | nil =>
    intro acc _ hname
    simp [tuneLoop, hname]
  | cons hd tl ih =>
    intro acc hpre hname
    obtain ⟨n0, m0⟩ := hd
    obtain ⟨g, hg⟩ := Option.isSome_iff_exists.mp (hpre ⟨n0, m0⟩ (List.mem_cons_self _ _))
    have hstep := ih (acc ++ [(n0, (ops.fit ⟨m0, g, "roc_auc", 3, -1⟩ X_train y_train).best_estimator_)])
      (fun p hp => hpre p (List.mem_cons_of_mem _ hp)) hname
    simp only [List.cons_append, tuneLoop, hg, List.append_eq]
    rw [hstep]
    simp [tunedEntry, hg, List.append_assoc]

/-! ## Claim theorems -/

/-- C1: with the defect present, whenever some model in iteration order
lacks a grid entry, `tune_models` returns after processing only the
first such model: the result is exactly the tuned versions of the
gridded models before it, followed by that model unchanged; every
subsequent model (gridded or not) is absent. -/
theorem tune_models_early_return {M G X Y P : Type} (ops : GSOps M G X Y P)
    (pre post : List (String × M)) (name : String) (model : M)
    (param_grids : List (String × G)) (X_train : X) (y_train : Y)
    (hpre : ∀ p ∈ pre, (List.lookup p.1 param_grids).isSome)
    (hname : List.lookup name param_grids = none) :
    tune_models ops (pre ++ (name, model) :: post) param_grids X_train y_train =
      some (pre.map (tunedEntry ops param_grids X_train y_train) ++ [(name, model)]) := by
  have h := tuneLoop_prefix_then_gridless ops param_grids X_train y_train
    name model post pre [] hpre hname
  simpa [tune_models] using h

/-- Witness for C1: models `A`, `B`, `C` where only `A` and `C` have
grids; the result keeps tuned `A` and untouched `B`, drops `C`. -/
theorem tune_models_early_return_witness :
    (∀ p ∈ [(("A" : String), (1 : Nat))],
        (List.lookup p.1 [(("A" : String), (7 : Nat)), ("C", 9)]).isSome) ∧
    List.lookup "B" [(("A" : String), (7 : Nat)), ("C", 9)] = none ∧
    tune_models natGSOps ([("A", 1)] ++ ("B", 2) :: [("C", 3)])
        [("A", 7), ("C", 9)] () () =
      some ([(("A" : String), (1 : Nat))].map (tunedEntry natGSOps [("A", 7), ("C", 9)] () ()) ++
        [("B", 2)]) :=
  ⟨by decide, by decide,
    tune_models_early_return natGSOps [("A", 1)] [("C", 3)] "B" 2
      [("A", 7), ("C", 9)] () () (by decide) (by decide)⟩

/-- C2 counterexample: the Cartesian-product cardinality of the MLP
grid is not 3888 — the candidate-list lengths are 4, 3, 3, 4, 3, 3 and
their product is 1296, so the spec's stated total 4×3×3×4×3×3 = 3888
is an arithmetic slip. -/
theorem mlp_grid_cardinality_not_3888 :
    (List.lookup "MLP" (define_param_grid ())).map gridCombinations ≠ some 3888 := by
  decide

/-- C2 (amended): the MLP grid has six parameters with candidate-list
lengths 4, 3, 3, 4, 3, 3, whose product — the Cartesian-product
cardinality — is 4×3×3×4×3×3 = 1296. -/
theorem mlp_grid_cardinality :
    (List.lookup "MLP" (define_param_grid ())).map gridShape = some [4, 3, 3, 4, 3, 3] ∧
    (List.lookup "MLP" (define_param_grid ())).map gridCombinations = some 1296 :=
  ⟨by decide, by decide⟩

/-- C3: the Random Forest grid has candidate-list lengths
4, 4, 3, 3, 3, 2 with product 864, and the KNN grid has lengths
5, 2, 4, 3, 2 with product 240. -/
theorem rf_knn_grid_cardinality :
    (List.lookup "Random Forest" (define_param_grid ())).map gridShape = some [4, 4, 3, 3, 3, 2] ∧
    (List.lookup "Random Forest" (define_param_grid ())).map gridCombinations = some 864 ∧
    (List.lookup "KNN" (define_param_grid ())).map gridShape = some [5, 2, 4, 3, 2] ∧
    (List.lookup "KNN" (define_param_grid ())).map gridCombinations = some 240 :=
  ⟨by decide, by decide, by decide, by decide⟩

/-- C4: with `from_loaded = true`, `train_and_evaluate` performs no
`fit` call (empty fit trace) and returns as `trained_models` exactly
the input association list, each name mapped to the very model value
passed in; no model state is altered. -/
theorem train_and_evaluate_from_loaded_frame {M X Y A : Type} [Inhabited A]
    (ops : MLOps M X Y A) (models : List (String × M))
    (X_train X_test : X) (y_train y_test : Y) :
    (train_and_evaluate ops models X_train X_test y_train y_test true).2.2 = [] ∧
    (train_and_evaluate ops models X_train X_test y_train y_test true).2.1 = models := by
  rw [train_and_evaluate_eq]
  refine ⟨rfl, ?_⟩
  simp [fittedModel]

/-- C5: `train_and_evaluate` returns results and trained models keyed
exactly by the input names, in order; each per-model record holds the
accuracy of `predict` on `X_test` against `y_test` and the fpr, tpr
and AUC produced by `custom_roc_auc` on `y_test` and column 1 of
`predict_proba(X_test)` of the (possibly fitted) model, and
`trained_models` holds those (possibly fitted) model instances. -/
theorem train_and_evaluate_results_spec {M X Y A : Type} [Inhabited A]
    (ops : MLOps M X Y A) (models : List (String × M))
    (X_train X_test : X) (y_train y_test : Y) (from_loaded : Bool) :
    (train_and_evaluate ops models X_train X_test y_train y_test from_loaded).1 =
      models.map (fun p => (p.1, evalRecordOf ops X_train X_test y_train y_test from_loaded p.2)) ∧
    (train_and_evaluate ops models X_train X_test y_train y_test from_loaded).2.1 =
      models.map (fun p => (p.1, fittedModel ops X_train y_train from_loaded p.2)) ∧
    (train_and_evaluate ops models X_train X_test y_train y_test from_loaded).1.map Prod.fst =
      models.map Prod.fst ∧
    (train_and_evaluate ops models X_train X_test y_train y_test from_loaded).2.1.map Prod.fst =
      models.map Prod.fst := by
  rw [train_and_evaluate_eq]
  refine ⟨rfl, rfl, ?_, ?_⟩ <;> simp

/-- C6: `define_models` returns exactly three entries — a random
forest, a KNN and an MLP classifier — freshly constructed with the
fixed seed 1234 supplied to the two stochastic classifiers. -/
theorem define_models_spec :
    (define_models ()).length = 3 ∧
    define_models () =
      [ ("Random Forest", SKModel.randomForestClassifier (some 1234)),
        ("KNN", SKModel.kneighborsClassifier),
        ("MLP", SKModel.mlpClassifier (some 1234)) ] :=
  ⟨rfl, rfl⟩

/-- C7: with a single KNN model and an empty grid dictionary,
`tune_models` hits the no-grid branch at the first entry and returns
exactly that model unchanged. -/
theorem tune_models_empty_grid_passthrough {M G X Y P : Type}
    (ops : GSOps M G X Y P) (default_knn : M) (X_train : X) (y_train : Y) :
    tune_models ops [("KNN", default_knn)] ([] : List (String × G)) X_train y_train =
      some [("KNN", default_knn)] :=
  rfl

/-- C8: one iteration of the `tune_models` loop on a model whose name
has a grid entry invokes the search routine on exactly
`GridSearchCV(model, param_grids[name], scoring="roc_auc", cv=3,
n_jobs=-1)` fitted on `(X_train, y_train)`, appends the search's
`best_estimator_` under the model's name to `best_models`, and
continues with the remaining models. -/
theorem tune_models_grid_search_step {M G X Y P : Type} (ops : GSOps M G X Y P)
    (param_grids : List (String × G)) (X_train : X) (y_train : Y)
    (name : String) (model : M) (rest best : List (String × M)) (g : G)
    (h : List.lookup name param_grids = some g) :
    tuneLoop ops param_grids X_train y_train ((name, model) :: rest) best =
      tuneLoop ops param_grids X_train y_train rest
        (best ++ [(name, (ops.fit ⟨model, g, "roc_auc", 3, -1⟩ X_train y_train).best_estimator_)]) := by
  simp [tuneLoop, h]

/-- Witness for C8: a single gridded model steps to the search's best
estimator. -/
theorem tune_models_grid_search_step_witness :
    List.lookup "A" [(("A" : String), (7 : Nat))] = some 7 ∧
    tuneLoop natGSOps [("A", 7)] () () [("A", 1)] [] =
      tuneLoop natGSOps [("A", 7)] () () []
        ([] ++ [("A", (natGSOps.fit ⟨1, 7, "roc_auc", 3, -1⟩ () ()).best_estimator_)]) :=
  ⟨by decide,
    tune_models_grid_search_step natGSOps [("A", 7)] () () "A" 1 [] [] 7 (by decide)⟩

/-- C9: the registries are pure and deterministic: any two invocations
return structurally equal mappings. -/
theorem registries_deterministic (u v : Unit) :
    define_models u = define_models v ∧ define_param_grid u = define_param_grid v :=
  ⟨rfl, rfl⟩

/-- C10: when every model name has a grid entry, the loop never takes
the branch holding the `return` statement, so control falls off the end
of `tune_models` and the caller receives Python `None` — no
`best_models` mapping at all. -/
theorem tune_models_all_gridded_none {M G X Y P : Type} (ops : GSOps M G X Y P)
    (models : List (String × M)) (param_grids : List (String × G))
    (X_train : X) (y_train : Y)
    (_hne : models ≠ [])
    (hall : ∀ p ∈ models, (List.lookup p.1 param_grids).isSome) :
    tune_models ops models param_grids X_train y_train = none :=
  tuneLoop_all_gridded ops param_grids X_train y_train models [] hall

/-- Witness for C10: a single model whose grid is present yields no
returned mapping. -/
theorem tune_models_all_gridded_none_witness :
    ([(("A" : String), (1 : Nat))] ≠ ([] : List (String × Nat))) ∧
    (∀ p ∈ [(("A" : String), (1 : Nat))],
        (List.lookup p.1 [(("A" : String), (5 : Nat))]).isSome) ∧
    tune_models natGSOps [("A", 1)] [("A", 5)] () () = none :=
  ⟨by decide, by decide,
    tune_models_all_gridded_none natGSOps [("A", 1)] [("A", 5)] () ()
      (by decide) (by decide)⟩

end UserAuth
